import Mathlib

/-!
Shallow embedding of the Bully-algorithm election node implemented in
lab2.py (class Lab2TCPServer).  Python dictionaries are modelled as
association lists carrying Python dict insertion semantics, outbound
network sends as oracle-driven attempts whose failures are caught inside
the send helper (the try/except blocks of the source), and the two
bounded event waits as arrival-time oracles compared against the timeout
constants hard-coded in the source (5 and 15 seconds).
-/

namespace Lab2

/-- Node identity: the pair (days to next birthday, SeattleU id);
lab2.py line 82, with Python int semantics. -/
abbrev Identity := Int × Int

/-- A network address (host, port), as stored in the members dict. -/
abbrev Address := String × Int

/-- The members table of lab2.py line 85: a Python dict mapping identity
to address, modelled as an association list in insertion order (a Python
dict never holds two entries with the same key). -/
abbrev Registry := List (Identity × Address)

/-- Python dict assignment d[k] = v: overwrite the entry for k in place
when present, otherwise append at the end. -/
def dictInsert : Registry → Identity → Address → Registry
  | [], k, v => [(k, v)]
  | p :: rest, k, v =>
    if p.1 = k then (k, v) :: rest else p :: dictInsert rest k v

/-- Python dict lookup d.get(k), lab2.py line 300: the entry for k when
present, otherwise None. -/
def dictGet : Registry → Identity → Option Address
  | [], _ => none
  | p :: rest, k => if p.1 = k then some p.2 else dictGet rest k

/-- Python d.update(n), lab2.py line 198: insert every entry of the
incoming dict in order, overwriting entries already present. -/
def dictUpdate (m n : Registry) : Registry :=
  n.foldl (fun acc p => dictInsert acc p.1 p.2) m

/-- The Python comparison ident > self.identity on two int pairs
(lab2.py line 129): lexicographic, first components decide unless equal. -/
def tupleGt (x y : Identity) : Bool :=
  if x.1 = y.1 then decide (x.2 > y.2) else decide (x.1 > y.1)

/-- The typed envelopes exchanged between peers (lab2.py lines 142, 206,
238). -/
inductive Msg where
  | ELECTION (sender : Identity) (snapshot : Registry)
  | OK
  | COORDINATOR (leader : Identity)
  deriving DecidableEq

/-- A record of one outbound send attempt: destination identity, the
address handed to socket.connect (None possible via dict.get), the
envelope, and whether the send succeeded. -/
structure SentMsg where
  dest : Identity
  addr : Option Address
  msg : Msg
  success : Bool
  deriving DecidableEq

/-- The environment of one election round: the directory response seen by
connect_to_gcd (none models an exception or a non-dict reply), the
arrival times of the OK and COORDINATOR signals relative to the start of
their waits (none models no arrival), and the per-address send-failure
oracle. -/
structure RoundEnv where
  gcdResp : Option Registry
  okArrival : Option Nat
  coordArrival : Option Nat
  sendFails : Address → Bool

/-- The shared mutable fields of Lab2TCPServer (lab2.py lines 82-85). -/
structure ServerState where
  identity : Identity
  in_election : Bool
  current_leader : Option Identity
  members : Registry
  deriving DecidableEq

/-- The state set up by Lab2TCPServer.__init__ (lab2.py lines 82-85). -/
def initState (identity : Identity) : ServerState :=
  { identity := identity, in_election := false,
    current_leader := none, members := [] }

/-- threading.Event.wait(timeout): true when the signal arrives before
the timeout elapses. -/
def eventWait (timeout : Nat) (arrival : Option Nat) : Bool :=
  match arrival with
  | some t => decide (t < timeout)
  | none => false

/-- One socket send: connecting to None raises (caught by the caller),
otherwise the failure oracle decides. -/
def trySend (fails : Address → Bool) (addr : Option Address) :
    Except String Unit :=
  match addr with
  | none => Except.error "cannot connect to a None address"
  | some a => if fails a then Except.error "send failed" else Except.ok ()

/-- A send attempt wrapped in try/except as in the source: the error is
absorbed (logged) and recorded as an unsuccessful attempt. -/
def attemptSend (fails : Address → Bool) (dest : Identity)
    (addr : Option Address) (m : Msg) : SentMsg :=
  match trySend fails addr with
  | Except.ok _ => { dest := dest, addr := addr, msg := m, success := true }
  | Except.error _ => { dest := dest, addr := addr, msg := m, success := false }

/-- connect_to_gcd (lab2.py lines 88-110): on a dict response the members
table is assigned wholesale; on an exception or a non-dict response the
state is left unchanged. -/
def connect_to_gcd (s : ServerState) (resp : Option Registry) : ServerState :=
  match resp with
  | some r => { s with members := r }
  | none => s

/-- The higher-members comprehension of lab2.py line 129. -/
def higherMembers (members : Registry) (self : Identity) : Registry :=
  members.filter (fun p => tupleGt p.1 self)

/-- The COORDINATOR broadcast loop of declare_leader (lab2.py lines
231-243): every member is visited in order, self is skipped by continue,
and a failed send is caught and the loop continues. -/
def coordBroadcast (fails : Address → Bool) (self : Identity) :
    Registry → List SentMsg
  | [] => []
  | p :: rest =>
    if p.1 = self then coordBroadcast fails self rest
    else attemptSend fails p.1 (some p.2) (Msg.COORDINATOR self) ::
      coordBroadcast fails self rest

/-- declare_leader (lab2.py lines 217-243): record self as leader, clear
in_election, then broadcast COORDINATOR(self) to every other member. -/
def declare_leader (renv : RoundEnv) (s : ServerState) :
    ServerState × List SentMsg :=
  let s1 := { s with current_leader := some s.identity, in_election := false }
  (s1, coordBroadcast renv.sendFails s1.identity s1.members)

/-- wait_for_coordinator (lab2.py lines 263-283): wait up to 15 seconds
for the COORDINATOR signal; on arrival do nothing further, on timeout
clear in_election and restart the election (restart is the recursive
start_election call). -/
def wait_for_coordinator (restart : ServerState → ServerState × List SentMsg)
    (renv : RoundEnv) (s : ServerState) : ServerState × List SentMsg :=
  let timeout := 15
  if eventWait timeout renv.coordArrival then (s, [])
  else restart { s with in_election := false }

/-- handle_ok (lab2.py lines 151-168): wait up to 5 seconds for the OK
signal; on arrival wait for the COORDINATOR message, on timeout declare
self the leader. -/
def handle_ok (restart : ServerState → ServerState × List SentMsg)
    (renv : RoundEnv) (s : ServerState) : ServerState × List SentMsg :=
  let timeout := 5
  if eventWait timeout renv.okArrival then
    wait_for_coordinator restart renv s
  else declare_leader renv s

/-- The registry refresh at the top of an election (lab2.py lines
122-125): set in_election, then connect_to_gcd. -/
def election_refresh (renv : RoundEnv) (s : ServerState) : ServerState :=
  connect_to_gcd { s with in_election := true } renv.gcdResp

/-- start_election (lab2.py lines 112-149), driven by a list of round
environments, one consumed per (re-)invocation; an empty list cuts the
execution off with no further effect.  If already in an election the call
returns immediately.  Otherwise: refresh from the directory, select the
strictly higher members, and either declare self leader (none higher) or
send ELECTION(identity, members) to each higher member and wait for OK. -/
def start_election : List RoundEnv → ServerState → ServerState × List SentMsg
  | [], s => (s, [])
  | renv :: rest, s =>
    if s.in_election then (s, [])
    else
      let s2 := election_refresh renv s
      let higher := higherMembers s2.members s2.identity
      if higher.isEmpty then declare_leader renv s2
      else
        let sends := higher.map (fun p =>
          attemptSend renv.sendFails p.1 (some p.2)
            (Msg.ELECTION s2.identity s2.members))
        let r := handle_ok (fun t => start_election rest t) renv s2
        (r.1, sends ++ r.2)

/-- handle_election (lab2.py lines 183-215): merge the sender members
into the local registry, attempt an OK reply to the sender (failure
caught and logged), then start an own election when not already in one. -/
def handle_election (sender_identity : Identity)
    (sender_address : Option Address) (sender_members : Registry)
    (renv : RoundEnv) (fuel : List RoundEnv) (s : ServerState) :
    ServerState × List SentMsg :=
  let s1 := { s with members := dictUpdate s.members sender_members }
  let okSend := attemptSend renv.sendFails sender_identity sender_address Msg.OK
  if s1.in_election then (s1, [okSend])
  else
    let r := start_election fuel s1
    (r.1, okSend :: r.2)

/-- handle_leader (lab2.py lines 245-261): record the identity carried by
a COORDINATOR message as the leader and clear in_election. -/
def handle_leader (new_leader_identity : Identity) (s : ServerState) :
    ServerState :=
  { s with current_leader := some new_leader_identity, in_election := false }

/-- handle_ok_received (lab2.py lines 170-181): only sets the transient
wait event; no shared field changes. -/
def handle_ok_received (s : ServerState) : ServerState := s

/-- The decoded inbound wire messages dispatched by handle_request. -/
inductive WireMsg where
  | election (sender : Identity) (snapshot : Registry)
  | coordinator (leader : Identity)
  | okMsg
  | unknown (name : String)

/-- handle_request (lab2.py lines 285-308): route by tag; for ELECTION
the sender address is looked up with members_data.get(sender_identity). -/
def handle_request (msg : WireMsg) (renv : RoundEnv) (fuel : List RoundEnv)
    (s : ServerState) : ServerState × List SentMsg :=
  match msg with
  | WireMsg.election sender snap =>
      handle_election sender (dictGet snap sender) snap renv fuel s
  | WireMsg.coordinator l => (handle_leader l s, [])
  | WireMsg.okMsg => (handle_ok_received s, [])
  | WireMsg.unknown _ => (s, [])

/-- The operations that can touch the shared state of a running node. -/
inductive Event where
  | inbound (msg : WireMsg) (renv : RoundEnv) (fuel : List RoundEnv)
  | startElection (fuel : List RoundEnv)
  | gcdRefresh (resp : Option Registry)

/-- One operation applied to the shared state. -/
def step (e : Event) (s : ServerState) : ServerState :=
  match e with
  | Event.inbound msg renv fuel => (handle_request msg renv fuel s).1
  | Event.startElection fuel => (start_election fuel s).1
  | Event.gcdRefresh resp => connect_to_gcd s resp

/-! ### Dictionary lemmas -/

theorem dictGet_dictInsert (m : Registry) (k k2 : Identity) (v : Address) :
    dictGet (dictInsert m k v) k2 =
      if k2 = k then some v else dictGet m k2 := by
  induction m with
  | nil =>
    by_cases h : k2 = k
    · simp [dictInsert, dictGet, h]
    · have h2 : ¬ k = k2 := fun hh => h hh.symm
      simp [dictInsert, dictGet, h, h2]
  | cons p rest ih =>
    by_cases hp : p.1 = k
    · by_cases h : k2 = k
      · simp [dictInsert, dictGet, hp, h]
      · have h2 : ¬ k = k2 := fun hh => h hh.symm
        have h3 : ¬ p.1 = k2 := by
          rw [hp]
          exact h2
        simp [dictInsert, dictGet, hp, h, h2, h3]
    · by_cases h : k2 = k
      · have h3 : ¬ p.1 = k2 := by
          rw [h]
          exact hp
        subst h
        simp [dictInsert, dictGet, hp, h3, ih]
      · simp [dictInsert, dictGet, hp, h, ih]

theorem dictGet_dictUpdate_of_none (n m : Registry) (k : Identity)
    (h : dictGet n k = none) :
    dictGet (dictUpdate m n) k = dictGet m k := by
  induction n generalizing m with
  | nil => rfl
  | cons p rest ih =>
    have hp : ¬ p.1 = k := by
      intro he
      simp [dictGet, he] at h
    have hr : dictGet rest k = none := by
      simpa [dictGet, hp] using h
    have hstep : dictUpdate m (p :: rest) = dictUpdate (dictInsert m p.1 p.2) rest := rfl
    have hk : ¬ k = p.1 := fun hh => hp hh.symm
    rw [hstep, ih _ hr, dictGet_dictInsert, if_neg hk]

theorem dictGet_eq_none_of_not_mem_keys (n : Registry) (k : Identity)
    (h : k ∉ n.map Prod.fst) : dictGet n k = none := by
  induction n with
  | nil => rfl
  | cons p rest ih =>
    simp only [List.map_cons, List.mem_cons] at h
    push_neg at h
    have hp : ¬ p.1 = k := fun hh => h.1 hh.symm
    simp [dictGet, hp, ih h.2]

theorem dictGet_dictUpdate_of_some (n m : Registry) (k : Identity) (v : Address)
    (hn : (n.map Prod.fst).Nodup) (h : dictGet n k = some v) :
    dictGet (dictUpdate m n) k = some v := by
  induction n generalizing m with
  | nil => simp [dictGet] at h
  | cons p rest ih =>
    simp only [List.map_cons, List.nodup_cons] at hn
    have hstep : dictUpdate m (p :: rest) = dictUpdate (dictInsert m p.1 p.2) rest := rfl
    by_cases hp : p.1 = k
    · have hv : p.2 = v := by
        simpa [dictGet, hp] using h
      have hmem : k ∉ rest.map Prod.fst := by
        rw [← hp]
        exact hn.1
      have hrest : dictGet rest k = none :=
        dictGet_eq_none_of_not_mem_keys rest k hmem
      rw [hstep, dictGet_dictUpdate_of_none rest _ k hrest, dictGet_dictInsert,
        if_pos hp.symm, hv]
    · have hr : dictGet rest k = some v := by
        simpa [dictGet, hp] using h
      rw [hstep]
      exact ih _ hn.2 hr

theorem dictGet_dictUpdate_ne_none (n m : Registry) (k : Identity)
    (h : dictGet m k ≠ none) : dictGet (dictUpdate m n) k ≠ none := by
  induction n generalizing m with
  | nil => exact h
  | cons p rest ih =>
    have hstep : dictUpdate m (p :: rest) = dictUpdate (dictInsert m p.1 p.2) rest := rfl
    rw [hstep]
    refine ih _ ?_
    rw [dictGet_dictInsert]
    by_cases hk : k = p.1
    · simp [hk]
    · rw [if_neg hk]
      exact h

/-! ### Field-preservation lemmas for the state operations -/

theorem connect_to_gcd_identity (s : ServerState) (resp : Option Registry) :
    (connect_to_gcd s resp).identity = s.identity := by
  cases resp <;> rfl

theorem connect_to_gcd_leader (s : ServerState) (resp : Option Registry) :
    (connect_to_gcd s resp).current_leader = s.current_leader := by
  cases resp <;> rfl

theorem connect_to_gcd_in_election (s : ServerState) (resp : Option Registry) :
    (connect_to_gcd s resp).in_election = s.in_election := by
  cases resp <;> rfl

theorem election_refresh_identity (renv : RoundEnv) (s : ServerState) :
    (election_refresh renv s).identity = s.identity :=
  connect_to_gcd_identity _ _

theorem election_refresh_leader (renv : RoundEnv) (s : ServerState) :
    (election_refresh renv s).current_leader = s.current_leader :=
  connect_to_gcd_leader _ _

theorem declare_leader_fst (renv : RoundEnv) (s : ServerState) :
    (declare_leader renv s).1 =
      { s with current_leader := some s.identity, in_election := false } := rfl

/-- The identity field is never written by the election operations. -/
theorem start_election_identity (fuel : List RoundEnv) (s : ServerState) :
    (start_election fuel s).1.identity = s.identity := by
  induction fuel generalizing s with
  | nil => rfl
  | cons renv rest ih =>
    simp only [start_election, handle_ok, wait_for_coordinator]
    split
    · rfl
    · split
      · rw [declare_leader_fst]
        exact election_refresh_identity renv s
      · split
        · split
          · exact election_refresh_identity renv s
          · rw [ih]
            exact election_refresh_identity renv s
        · rw [declare_leader_fst]
          exact election_refresh_identity renv s

/-- start_election either leaves the leader pointer untouched or sets it
to the identity of the node itself (through declare_leader). -/
theorem start_election_leader (fuel : List RoundEnv) (s : ServerState) :
    (start_election fuel s).1.current_leader = s.current_leader ∨
    (start_election fuel s).1.current_leader = some s.identity := by
  induction fuel generalizing s with
  | nil => exact Or.inl rfl
  | cons renv rest ih =>
    simp only [start_election, handle_ok, wait_for_coordinator]
    split
    · exact Or.inl rfl
    · split
      · right
        rw [declare_leader_fst]
        simp [election_refresh_identity]
      · split
        · split
          · exact Or.inl (election_refresh_leader renv s)
          · rcases ih { election_refresh renv s with in_election := false } with h1 | h1
            · left
              rw [h1]
              exact election_refresh_leader renv s
            · right
              rw [h1]
              simp [election_refresh_identity]
        · right
          rw [declare_leader_fst]
          simp [election_refresh_identity]

/-! ### Broadcast lemmas -/

theorem attemptSend_dest (f : Address → Bool) (d : Identity)
    (a : Option Address) (m : Msg) : (attemptSend f d a m).dest = d := by
  unfold attemptSend
  split <;> rfl

theorem attemptSend_addr (f : Address → Bool) (d : Identity)
    (a : Option Address) (m : Msg) : (attemptSend f d a m).addr = a := by
  unfold attemptSend
  split <;> rfl

theorem attemptSend_msg (f : Address → Bool) (d : Identity)
    (a : Option Address) (m : Msg) : (attemptSend f d a m).msg = m := by
  unfold attemptSend
  split <;> rfl

theorem attemptSend_none (f : Address → Bool) (d : Identity) (m : Msg) :
    attemptSend f d none m =
      { dest := d, addr := none, msg := m, success := false } := rfl

theorem coordBroadcast_eq (fails : Address → Bool) (selfI : Identity)
    (l : Registry) :
    coordBroadcast fails selfI l =
      (l.filter (fun p => !(decide (p.1 = selfI)))).map
        (fun p => attemptSend fails p.1 (some p.2) (Msg.COORDINATOR selfI)) := by
  induction l with
  | nil => rfl
  | cons p rest ih =>
    by_cases hp : p.1 = selfI
    · simp [coordBroadcast, hp, ih]
    · simp [coordBroadcast, hp, ih]

theorem coordBroadcast_attempts (fails : Address → Bool) (selfI : Identity)
    (l : Registry) :
    (coordBroadcast fails selfI l).map (fun a => (a.dest, a.addr)) =
      (l.filter (fun p => !(decide (p.1 = selfI)))).map
        (fun p => (p.1, some p.2)) := by
  rw [coordBroadcast_eq, List.map_map]
  simp [Function.comp_def, attemptSend_dest, attemptSend_addr]

/-! ### Concrete fixtures used by witnesses and counterexamples -/

/-- A quiet round: directory unreachable, no signal arrivals, all sends
succeed. -/
def renv0 : RoundEnv :=
  { gcdResp := none, okArrival := none, coordArrival := none,
    sendFails := fun _ => false }

/-- A round in which the OK signal arrives after 2 time units. -/
def renvOk : RoundEnv := { renv0 with okArrival := some 2 }

/-- A round in which every outbound send fails. -/
def renvFail : RoundEnv := { renv0 with sendFails := fun _ => true }

/-- A node that is the highest identity of its members table. -/
def st0 : ServerState :=
  { identity := (10, 1234567), in_election := false, current_leader := none,
    members := [((10, 1234567), ("localhost", 5000)),
                ((3, 1111111), ("localhost", 5001))] }

/-- The same node, mid-election. -/
def st1 : ServerState := { st0 with in_election := true }

/-- A node that knows a strictly higher peer. -/
def stLow : ServerState :=
  { identity := (3, 1111111), in_election := false, current_leader := none,
    members := [((3, 1111111), ("localhost", 5001)),
                ((10, 1234567), ("localhost", 5000))] }

/-- A registry entry learnt from a peer snapshot. -/
def peerEntry : Identity × Address := ((20, 2000000), ("localhost", 6000))

/-! ### Claim theorems -/

/-- Claim C6: calling start_election while in_election is already true is
a no-op: the call returns at once, the state (flag, leader, registry) is
unchanged and no message is sent. -/
theorem C6_reentry_guard (fuel : List RoundEnv) (s : ServerState)
    (h : s.in_election = true) : start_election fuel s = (s, []) := by
  cases fuel with
  | nil => rfl
  | cons renv rest => simp [start_election, h]

theorem C6_reentry_guard_witness : start_election [] st1 = (st1, []) :=
  C6_reentry_guard [] st1 rfl

/-- Claim C4: the OK wait of handle_ok is bounded by the constant 5; when
the OK signal arrives before the bound elapses the node goes on to wait
for the COORDINATOR message, and when the bound elapses with no OK the
node invokes declare_leader. -/
theorem C4_ok_wait (rest : List RoundEnv) (renv : RoundEnv) (s : ServerState) :
    (∀ t : Nat, renv.okArrival = some t → t < 5 →
      handle_ok (start_election rest) renv s =
        wait_for_coordinator (start_election rest) renv s) ∧
    (eventWait 5 renv.okArrival = false →
      handle_ok (start_election rest) renv s = declare_leader renv s) := by
  constructor
  · intro t ht hlt
    simp [handle_ok, eventWait, ht, hlt]
  · intro h
    simp [handle_ok, h]

theorem C4_ok_wait_witness :
    handle_ok (start_election []) renvOk st1 =
      wait_for_coordinator (start_election []) renvOk st1 :=
  (C4_ok_wait [] renvOk st1).1 2 rfl (by decide)

/-- Claim C5: the COORDINATOR wait of wait_for_coordinator is bounded by
the constant 15; on timeout the node clears in_election and re-invokes
start_election on the resulting state, and when the COORDINATOR signal
arrives before the bound elapses nothing further happens (state unchanged,
no message sent) beyond the update already made by handle_leader. -/
theorem C5_coordinator_wait (rest : List RoundEnv) (renv : RoundEnv)
    (s : ServerState) :
    (eventWait 15 renv.coordArrival = false →
      wait_for_coordinator (start_election rest) renv s =
        start_election rest { s with in_election := false }) ∧
    (∀ t : Nat, renv.coordArrival = some t → t < 15 →
      wait_for_coordinator (start_election rest) renv s = (s, [])) := by
  constructor
  · intro h
    simp [wait_for_coordinator, h]
  · intro t ht hlt
    simp [wait_for_coordinator, eventWait, ht, hlt]

theorem C5_coordinator_wait_witness :
    wait_for_coordinator (start_election []) renv0 st1 =
      start_election [] { st1 with in_election := false } :=
  (C5_coordinator_wait [] renv0 st1).1 rfl

/-- Claim C7: the Python pair comparison used for election ranking is
true exactly when the first components compare greater or are equal and
the second components compare greater; it is total (any two distinct
identities are strictly comparable), asymmetric and irreflexive, it has
no ties among identities with distinct second components, and it is the
very ordering used to select the higher peers in start_election. -/
theorem C7_identity_order :
    (∀ a b c d : Int, tupleGt (a, b) (c, d) = true ↔
      (a > c ∨ (a = c ∧ b > d))) ∧
    (∀ x y : Identity, x ≠ y → tupleGt x y = true ∨ tupleGt y x = true) ∧
    (∀ x y : Identity, tupleGt x y = true → tupleGt y x = false) ∧
    (∀ x : Identity, tupleGt x x = false) ∧
    (∀ a b c d : Int, b ≠ d →
      ((a, b) : Identity) ≠ (c, d) ∧
        (tupleGt (a, b) (c, d) = true ∨ tupleGt (c, d) (a, b) = true)) ∧
    (∀ (members : Registry) (selfI : Identity),
      higherMembers members selfI =
        members.filter (fun p => tupleGt p.1 selfI)) := by
  refine ⟨?_, ?_, ?_, ?_, ?_, ?_⟩
  · intro a b c d
    by_cases h : a = c
    · subst h
      simp [tupleGt]
    · simp [tupleGt, h]
  · intro x y hxy
    rcases x with ⟨a, b⟩
    rcases y with ⟨c, d⟩
    by_cases h : a = c
    · subst h
      have hbd : b ≠ d := by
        intro hbd
        exact hxy (by rw [hbd])
      simp [tupleGt]
      omega
    · have h2 : ¬ c = a := fun hh => h hh.symm
      simp [tupleGt, h, h2]
  · intro x y hxy
    rcases x with ⟨a, b⟩
    rcases y with ⟨c, d⟩
    by_cases h : a = c
    · subst h
      simp [tupleGt] at hxy ⊢
      omega
    · have h2 : ¬ c = a := fun hh => h hh.symm
      simp [tupleGt, h, h2] at hxy ⊢
      omega
  · intro x
    simp [tupleGt]
  · intro a b c d hbd
    constructor
    · intro he
      exact hbd (congrArg Prod.snd he)
    · by_cases h : a = c
      · subst h
        simp [tupleGt]
        omega
      · have h2 : ¬ c = a := fun hh => h hh.symm
        simp [tupleGt, h, h2]
  · intro members selfI
    rfl

theorem C7_identity_order_witness : tupleGt (5, 200) (5, 100) = true :=
  (C7_identity_order.1 5 200 5 100).mpr (Or.inr ⟨rfl, by norm_num⟩)

/-- Claim C2: a node whose refreshed registry holds no identity strictly
greater than its own, starting an election while not already in one,
invokes declare_leader directly: the leader pointer becomes its own
identity, in_election ends false, and a COORDINATOR message carrying its
own identity is attempted to every registry entry other than itself. -/
theorem C2_no_higher_declares_leader (renv : RoundEnv) (rest : List RoundEnv)
    (s : ServerState) (hni : s.in_election = false)
    (hh : ∀ p ∈ (election_refresh renv s).members,
      tupleGt p.1 s.identity = false) :
    start_election (renv :: rest) s =
      declare_leader renv (election_refresh renv s) ∧
    (start_election (renv :: rest) s).1.current_leader = some s.identity ∧
    (start_election (renv :: rest) s).1.in_election = false ∧
    (start_election (renv :: rest) s).2 =
      ((election_refresh renv s).members.filter
          (fun p => !(decide (p.1 = s.identity)))).map
        (fun p => attemptSend renv.sendFails p.1 (some p.2)
          (Msg.COORDINATOR s.identity)) := by
  have hhi : higherMembers (election_refresh renv s).members
      (election_refresh renv s).identity = [] := by
    rw [election_refresh_identity, higherMembers, List.filter_eq_nil_iff]
    intro p hp
    simp [hh p hp]
  have hmain : start_election (renv :: rest) s =
      declare_leader renv (election_refresh renv s) := by
    simp [start_election, hni, hhi]
  refine ⟨hmain, ?_, ?_, ?_⟩
  · rw [hmain, declare_leader_fst]
    simp [election_refresh_identity]
  · rw [hmain, declare_leader_fst]
  · rw [hmain]
    show coordBroadcast renv.sendFails (election_refresh renv s).identity
        (election_refresh renv s).members = _
    rw [coordBroadcast_eq, election_refresh_identity]

theorem C2_no_higher_declares_leader_witness :
    (start_election [renv0] st0).1.current_leader = some (10, 1234567) ∧
    (start_election [renv0] st0).1.in_election = false :=
  ⟨(C2_no_higher_declares_leader renv0 [] st0 rfl (by decide)).2.1,
    (C2_no_higher_declares_leader renv0 [] st0 rfl (by decide)).2.2.1⟩

/-- Claim C3: handle_election merges the sender snapshot into the local
registry as a last-write-wins union (an entry of the snapshot wins, an
entry absent from the snapshot is kept unchanged), always attempts an OK
reply to the sender first, whatever the ranks of sender and receiver,
and, when in_election is false, goes on to run the node's own
start_election on the merged state. -/
theorem C3_handle_election_behaviour (sid : Identity) (saddr : Option Address)
    (snap : Registry) (renv : RoundEnv) (fuel : List RoundEnv)
    (s : ServerState) (hn : (snap.map Prod.fst).Nodup) :
    (∀ k v, dictGet snap k = some v →
      dictGet (dictUpdate s.members snap) k = some v) ∧
    (∀ k, dictGet snap k = none →
      dictGet (dictUpdate s.members snap) k = dictGet s.members k) ∧
    (s.in_election = true →
      handle_election sid saddr snap renv fuel s =
        ({ s with members := dictUpdate s.members snap },
          [attemptSend renv.sendFails sid saddr Msg.OK])) ∧
    ((handle_election sid saddr snap renv fuel s).2.head? =
      some (attemptSend renv.sendFails sid saddr Msg.OK)) ∧
    (s.in_election = false →
      handle_election sid saddr snap renv fuel s =
        ((start_election fuel { s with members := dictUpdate s.members snap }).1,
          attemptSend renv.sendFails sid saddr Msg.OK ::
            (start_election fuel
              { s with members := dictUpdate s.members snap }).2)) := by
  refine ⟨fun k v h => dictGet_dictUpdate_of_some snap s.members k v hn h,
    fun k h => dictGet_dictUpdate_of_none snap s.members k h, ?_, ?_, ?_⟩
  · intro h
    simp [handle_election, h]
  · by_cases h : s.in_election
    · simp [handle_election, h]
    · simp [handle_election, h]
  · intro h
    simp [handle_election, h]

theorem C3_handle_election_behaviour_witness :
    (handle_election (20, 2000000) (some ("localhost", 6000)) [peerEntry]
        renv0 [] st1).2.head? =
      some (attemptSend renv0.sendFails (20, 2000000)
        (some ("localhost", 6000)) Msg.OK) :=
  (C3_handle_election_behaviour (20, 2000000) (some ("localhost", 6000))
    [peerEntry] renv0 [] st1 (by decide)).2.2.2.1

/-- When higher members exist, the output of start_election is the
ELECTION sends to the higher members followed by whatever the OK wait
produces. -/
theorem start_election_sends_shape (renv : RoundEnv) (rest : List RoundEnv)
    (s : ServerState) (hni : s.in_election = false)
    (hne : (higherMembers (election_refresh renv s).members
      (election_refresh renv s).identity).isEmpty = false) :
    (start_election (renv :: rest) s).2 =
      (higherMembers (election_refresh renv s).members
          (election_refresh renv s).identity).map
        (fun p => attemptSend renv.sendFails p.1 (some p.2)
          (Msg.ELECTION (election_refresh renv s).identity
            (election_refresh renv s).members)) ++
      (handle_ok (fun t => start_election rest t) renv
        (election_refresh renv s)).2 := by
  simp only [start_election, hni, Bool.false_eq_true, if_false, hne]

/-- Claim C8: both broadcast loops are best-effort with per-peer failure
isolation: whatever the failure oracle says, the COORDINATOR loop of
declare_leader attempts every member other than self, and the ELECTION
loop of start_election attempts every higher member; failures are caught
inside attemptSend and never escape the loop. -/
theorem C8_broadcast_isolation :
    (∀ (fails : Address → Bool) (selfI : Identity) (l : Registry),
      (coordBroadcast fails selfI l).map (fun a => (a.dest, a.addr)) =
        (l.filter (fun p => !(decide (p.1 = selfI)))).map
          (fun p => (p.1, some p.2))) ∧
    (∀ (renv : RoundEnv) (rest : List RoundEnv) (s : ServerState),
      s.in_election = false →
      (higherMembers (election_refresh renv s).members s.identity).isEmpty
          = false →
      ((start_election (renv :: rest) s).2.take
          (higherMembers (election_refresh renv s).members
            s.identity).length).map (fun a => (a.dest, a.addr)) =
        (higherMembers (election_refresh renv s).members s.identity).map
          (fun p => (p.1, some p.2))) := by
  constructor
  · exact coordBroadcast_attempts
  · intro renv rest s hni hne
    have hid := election_refresh_identity renv s
    rw [← hid] at hne ⊢
    rw [start_election_sends_shape renv rest s hni hne]
    have hlen : (higherMembers (election_refresh renv s).members
        (election_refresh renv s).identity).length =
        ((higherMembers (election_refresh renv s).members
            (election_refresh renv s).identity).map (fun p =>
          attemptSend renv.sendFails p.1 (some p.2)
            (Msg.ELECTION (election_refresh renv s).identity
              (election_refresh renv s).members))).length :=
      (List.length_map _ _).symm
    rw [hlen, List.take_left, List.map_map]
    simp [Function.comp_def, attemptSend_dest, attemptSend_addr]

theorem C8_broadcast_isolation_witness :
    ((start_election [renvFail] stLow).2.take
        (higherMembers (election_refresh renvFail stLow).members
          stLow.identity).length).map (fun a => (a.dest, a.addr)) =
      (higherMembers (election_refresh renvFail stLow).members
        stLow.identity).map (fun p => (p.1, some p.2)) :=
  C8_broadcast_isolation.2 renvFail [] stLow rfl rfl

/-- Claim C9: an inbound ELECTION whose members snapshot does not contain
the sender identity is processed to completion: the members_data.get
lookup yields None, the OK reply attempt fails inside its try-block and
is merely recorded as unsuccessful, and the sender snapshot is still
merged into the local registry before anything else happens. -/
theorem C9_election_without_sender_entry (sid : Identity) (snap : Registry)
    (renv : RoundEnv) (fuel : List RoundEnv) (s : ServerState)
    (h : ∀ p ∈ snap, p.1 ≠ sid) :
    dictGet snap sid = none ∧
    (handle_request (WireMsg.election sid snap) renv fuel s).2.head? =
      some { dest := sid, addr := none, msg := Msg.OK, success := false } ∧
    (s.in_election = true →
      (handle_request (WireMsg.election sid snap) renv fuel s).1.members =
        dictUpdate s.members snap) ∧
    (s.in_election = false →
      handle_request (WireMsg.election sid snap) renv fuel s =
        ((start_election fuel { s with members := dictUpdate s.members snap }).1,
          { dest := sid, addr := none, msg := Msg.OK, success := false } ::
            (start_election fuel
              { s with members := dictUpdate s.members snap }).2)) := by
  have hget : dictGet snap sid = none := by
    apply dictGet_eq_none_of_not_mem_keys
    intro hmem
    rcases List.mem_map.mp hmem with ⟨p, hp, he⟩
    exact h p hp he
  have hreq : handle_request (WireMsg.election sid snap) renv fuel s =
      handle_election sid none snap renv fuel s := by
    simp [handle_request, hget]
  refine ⟨hget, ?_, ?_, ?_⟩
  · rw [hreq]
    by_cases hb : s.in_election
    · simp [handle_election, hb, attemptSend_none]
    · simp [handle_election, hb, attemptSend_none]
  · intro hb
    rw [hreq]
    simp [handle_election, hb]
  · intro hb
    rw [hreq]
    simp [handle_election, hb, attemptSend_none]

theorem C9_election_without_sender_entry_witness :
    (handle_request (WireMsg.election (99, 9999999) [peerEntry]) renv0 []
        st1).2.head? =
      some { dest := (99, 9999999), addr := none, msg := Msg.OK, success := false } :=
  (C9_election_without_sender_entry (99, 9999999) [peerEntry] renv0 [] st1
    (by decide)).2.1

/-- handle_election can only keep the leader pointer or set it to the own
identity (through a nested declare_leader). -/
theorem handle_election_leader (sid : Identity) (saddr : Option Address)
    (snap : Registry) (renv : RoundEnv) (fuel : List RoundEnv)
    (s : ServerState) :
    (handle_election sid saddr snap renv fuel s).1.current_leader =
        s.current_leader ∨
    (handle_election sid saddr snap renv fuel s).1.current_leader =
        some s.identity := by
  by_cases hb : s.in_election
  · left
    simp [handle_election, hb]
  · have hb2 : s.in_election = false := by
      simpa using hb
    have h1 := start_election_leader fuel
      ⟨s.identity, false, s.current_leader, dictUpdate s.members snap⟩
    simp only [handle_election, hb2, Bool.false_eq_true, if_false]
    simpa using h1

/-- Claim C10: in every operation of the node, the leader pointer is
either left unchanged, set to the identity of the node itself (only
declare_leader writes that), or set to the identity carried by an inbound
COORDINATOR message (only handle_leader writes that); in particular a
non-null leader pointer is never reset to null. -/
theorem C10_leader_provenance (e : Event) (s : ServerState) :
    ((step e s).current_leader = s.current_leader ∨
      (step e s).current_leader = some s.identity ∨
      ∃ l renv fuel, e = Event.inbound (WireMsg.coordinator l) renv fuel ∧
        (step e s).current_leader = some l) ∧
    (s.current_leader ≠ none → (step e s).current_leader ≠ none) := by
  have hmain : (step e s).current_leader = s.current_leader ∨
      (step e s).current_leader = some s.identity ∨
      ∃ l renv fuel, e = Event.inbound (WireMsg.coordinator l) renv fuel ∧
        (step e s).current_leader = some l := by
    cases e with
    | inbound msg renv fuel =>
      cases msg with
      | election sender snap =>
        rcases handle_election_leader sender (dictGet snap sender) snap renv
            fuel s with h1 | h1
        · exact Or.inl h1
        · exact Or.inr (Or.inl h1)
      | coordinator l =>
        exact Or.inr (Or.inr ⟨l, renv, fuel, rfl, rfl⟩)
      | okMsg => exact Or.inl rfl
      | unknown nm => exact Or.inl rfl
    | startElection fuel =>
      rcases start_election_leader fuel s with h1 | h1
      · exact Or.inl h1
      · exact Or.inr (Or.inl h1)
    | gcdRefresh resp => exact Or.inl (connect_to_gcd_leader s resp)
  refine ⟨hmain, ?_⟩
  intro hne
  rcases hmain with h1 | h1 | ⟨l, renv, fuel, _, h1⟩
  · rw [h1]
    exact hne
  · rw [h1]
    exact Option.some_ne_none _
  · rw [h1]
    exact Option.some_ne_none _

theorem C10_leader_provenance_witness :
    (step (Event.inbound (WireMsg.coordinator (50, 5000000)) renv0 [])
      { st0 with current_leader := some (10, 1234567) }).current_leader ≠
      none :=
  (C10_leader_provenance
    (Event.inbound (WireMsg.coordinator (50, 5000000)) renv0 [])
    { st0 with current_leader := some (10, 1234567) }).2 (by decide)

/-- The state a node reaches after merging one peer snapshot via an
inbound ELECTION while mid-election: st1 extended with peerEntry. -/
def stMerged : ServerState :=
  (handle_election peerEntry.1 none [peerEntry] renv0 [] st1).1

/-- Claim C1 counterexample: the entry peerEntry, accumulated from an
ELECTION merge, is present before a successful directory refresh whose
response does not report that identity, and gone afterwards — the refresh
does not preserve peer-sourced entries, it replaces the table wholesale. -/
theorem C1_refresh_counterexample :
    dictGet stMerged.members (20, 2000000) = some ("localhost", 6000) ∧
    dictGet (connect_to_gcd stMerged
        (some [((10, 1234567), ("localhost", 5000))])).members
      (20, 2000000) = none := by
  constructor
  · rfl
  · rfl

/-- Claim C1 (amended): merging a peer snapshot received in an ELECTION
message only adds or overwrites entries — any key present before the
merge is still present after it — and handle_election installs exactly
the merged table; but a successful directory refresh in connect_to_gcd
replaces the members table wholesale with the directory response (an
unsuccessful refresh leaves the state untouched), so peer-sourced entries
survive a refresh only when the directory response also reports them. -/
theorem C1_registry_lifecycle :
    (∀ (m n : Registry) (k : Identity),
      dictGet m k ≠ none → dictGet (dictUpdate m n) k ≠ none) ∧
    (∀ (sid : Identity) (saddr : Option Address) (snap : Registry)
        (renv : RoundEnv) (fuel : List RoundEnv) (s : ServerState),
      s.in_election = true →
      (handle_election sid saddr snap renv fuel s).1.members =
        dictUpdate s.members snap) ∧
    (∀ (s : ServerState) (r : Registry),
      (connect_to_gcd s (some r)).members = r) ∧
    (∀ s : ServerState, connect_to_gcd s none = s) := by
  refine ⟨fun m n k h => dictGet_dictUpdate_ne_none n m k h, ?_, ?_, ?_⟩
  · intro sid saddr snap renv fuel s h
    simp [handle_election, h]
  · intro s r
    rfl
  · intro s
    rfl

theorem C1_registry_lifecycle_witness :
    dictGet (dictUpdate [peerEntry] [((3, 1111111), ("localhost", 5001))])
      (20, 2000000) ≠ none :=
  C1_registry_lifecycle.1 [peerEntry] [((3, 1111111), ("localhost", 5001))]
    (20, 2000000) (by decide)

end Lab2
